import Mathlib

/-!
Shallow embedding of `src/psychopy/visual/grating.py` (class `GratingStim`),
the stimulus rendering engine of the repository.  Numeric parameter values
(numpy float arrays of length 2 in the source) are modelled as pairs of
rationals; GL display lists are modelled as explicit lists of commands;
fallible operations return `Except`.
-/

namespace PsychoPy

/-- Claim-level 2D vector standing for the length-2 numpy arrays the source
uses for size, sf, phase, and cycles. -/
structure V2 where
  x : Rat
  y : Rat
deriving DecidableEq, Repr

/-- Componentwise product, as numpy elementwise `*` in `sf * size`. -/
def V2.mul (a b : V2) : V2 := ⟨a.x * b.x, a.y * b.y⟩

/-- Componentwise reciprocal, as numpy elementwise `1.0 / size`. -/
def V2.inv (a : V2) : V2 := ⟨1 / a.x, 1 / a.y⟩

/-- Unit modes the source tests for by string membership:
`['norm','height']`, `['pix','pixels']`, `['deg','cm']`. -/
inductive UnitMode where
  | pix
  | pixels
  | deg
  | cm
  | norm
  | height
deriving DecidableEq, Repr

/-- Texture / mask pattern specification: a named procedural pattern
(`'sin'`, `'sqr'`, `'saw'`, `'tri'`, `'circle'`, `'gauss'`, `'raisedCos'`,
`None`), an image file carrying an intrinsic pixel size, or a raw numpy
array. -/
inductive PatternSpec where
  | sin
  | sqr
  | saw
  | tri
  | circle
  | gauss
  | raisedCos
  | blank
  | image (intrinsic : V2)
  | arr
deriving DecidableEq, Repr

/-- The mutable state of a `GratingStim` instance, restricted to the fields
the claims concern.  `needUpdate` is the `_needUpdate` dirty flag;
`cycles` is `_cycles`; `origSize` is `_origSize`; `requestedSize` is
`_requestedSize`; `texHandle` / `maskHandle` record the pattern last
uploaded into the GL texture objects `_texID` / `_maskID`.
`sizeRendered`, `posRendered` and `winScale` are the derived pixel-space
quantities computed by the external unit-conversion machinery. -/
structure GratingState where
  units : UnitMode
  tex : PatternSpec
  mask : PatternSpec
  texRes : Int
  maskParams : Option Int
  sf : V2
  size : V2
  phase : V2
  ori : Rat
  contrast : Rat
  opacity : Rat
  rgb : Rat × Rat × Rat
  origSize : Option V2
  requestedSize : Option V2
  cycles : V2
  needUpdate : Bool
  texHandle : PatternSpec
  maskHandle : PatternSpec
  sizeRendered : V2
  posRendered : V2
  winScale : V2
  texID : Nat
  maskID : Nat
  listID : Nat
  progSignedTexMask : Nat
deriving DecidableEq, Repr

/-- Embedding of `GratingStim._calcCyclesPerStim` (grating.py 422-426):
`_cycles = sf` when `units in ['norm','height']`, else `_cycles = sf * size`
(numpy elementwise product). -/
def calcCyclesPerStim (s : GratingState) : GratingState :=
  { s with cycles :=
      if s.units = UnitMode.norm ∨ s.units = UnitMode.height then s.sf
      else V2.mul s.sf s.size }

/-- Embedding of the `sf` attributeSetter (grating.py 162-187).  The Python
guard `self.units in ['pix','pixels'] or self._origSize is not None and
self.units in ['deg','cm']` parses as the first disjunct OR the
conjunction, which the embedding mirrors with explicit parentheses.  The
setter stores the value, recomputes cycles, and marks the stimulus dirty. -/
def setSf (s : GratingState) (value : Option V2) : GratingState :=
  let v : V2 :=
    match value with
    | none =>
        if (s.units = UnitMode.pix ∨ s.units = UnitMode.pixels)
            ∨ (s.origSize ≠ none ∧ (s.units = UnitMode.deg ∨ s.units = UnitMode.cm)) then
          V2.inv s.size
        else ⟨1, 1⟩
    | some w => w
  { calcCyclesPerStim { s with sf := v } with needUpdate := true }

/-- Embedding of the `phase` attributeSetter (grating.py 189-202): store the
value and mark dirty. -/
def setPhase (s : GratingState) (value : V2) : GratingState :=
  { s with phase := value, needUpdate := true }

/-- Modelled from the spec: `createTexture` (psychopy.visual.helpers, not
under src/) is the external Texture/Mask Provider of spec section 6.  It
uploads the given pattern spec into the caller-owned handle, and when the
spec is an image file it establishes the intrinsic size `_origSize`
(cf. grating.py 139).  Its contract touches no other stimulus state and in
particular says nothing about the dirty flag. -/
def createTexture (s : GratingState) (value : PatternSpec) (intoMask : Bool) : GratingState :=
  let s1 :=
    if intoMask then { s with maskHandle := value }
    else { s with texHandle := value }
  match value with
  | PatternSpec.image sz => { s1 with origSize := some sz }
  | _ => s1

/-- Modelled from the spec: the `size` setter lives in `BaseVisualStim`
(not under src/).  Per spec sections 3 and 4.1: a `None` value resolves to
the intrinsic size of a loaded image when one was established (otherwise
the caller must supply an explicit size, so the stored size is kept), the
rendered size and the cycles are recomputed, and the stimulus is marked
dirty. -/
def setSize (s : GratingState) (value : Option V2) : GratingState :=
  let v : V2 :=
    match value with
    | none =>
        match s.origSize with
        | some o => o
        | none => s.size
    | some w => w
  { calcCyclesPerStim { s with size := v } with needUpdate := true }

/-- Modelled from the spec: the `units` setter lives in `BaseVisualStim`
(not under src/).  Per the spec section 4.1 table it stores the new unit
mode, recomputes rendered position/size and cycles (the size-dependence
rule changes), and marks the stimulus dirty. -/
def setUnits (s : GratingState) (u : UnitMode) : GratingState :=
  { calcCyclesPerStim { s with units := u } with needUpdate := true }

/-- Modelled from the spec: the `ori` setter lives in `BaseVisualStim`
(not under src/); per the spec section 4.1 table orientation marks dirty
only. -/
def setOri (s : GratingState) (o : Rat) : GratingState :=
  { s with ori := o, needUpdate := true }

/-- Embedding of the `tex` attributeSetter (grating.py 204-218): upload the
pattern through `createTexture` into `_texID`, then, when the user
originally requested `size=None`, re-apply the size setter with `None`,
then store the value.  Note the setter itself never writes `_needUpdate`. -/
def setTex (s : GratingState) (value : PatternSpec) : GratingState :=
  let s1 := createTexture s value false
  let s2 := if s1.requestedSize = none then setSize s1 none else s1
  { s2 with tex := value }

/-- Embedding of the `mask` attributeSetter (grating.py 220-231): upload the
pattern through `createTexture` into `_maskID` and store the value.  The
setter never writes `_needUpdate`. -/
def setMask (s : GratingState) (value : PatternSpec) : GratingState :=
  let s1 := createTexture s value true
  { s1 with mask := value }

/-- Error taxonomy of the spec, section 7. -/
inductive ParamError where
  | invalidParameter
deriving DecidableEq, Repr

/-- Embedding of assignment to `texRes` (grating.py 117:
`self.texRes = texRes  #must be power of 2`).  No `texRes` property exists
in grating.py, so the assignment is a plain attribute store with no
validation; the `Except` wrapper records that no `InvalidParameterError`
is ever raised. -/
def setTexRes (s : GratingState) (v : Int) : Except ParamError GratingState :=
  Except.ok { s with texRes := v }

/-- Embedding of assignment to `maskParams` (grating.py 118): a plain
attribute store with no side effect. -/
def setMaskParams (s : GratingState) (v : Option Int) : GratingState :=
  { s with maskParams := v }

/-- Embedding of `_updateList` dispatch as it affects stimulus state: both
`_updateListShaders` (282) and `_updateListNoShaders` (351) begin by setting
`self._needUpdate = False`; the compiled commands are modelled separately. -/
def updateListApply (s : GratingState) : GratingState :=
  { s with needUpdate := false }

/-- Embedding of `GratingStim.__init__` (grating.py 61-159), restricted to
the fields the claims concern, in source order: provisional seeds
(107-110, contrast=1, size=1, sf=1), texRes and maskParams (117-118),
ori and phase (137-138), `_origSize = None` and `_requestedSize = size`
(139-140), the size setter (141), the sf setter (142), the tex and mask
setters (146-147), `_calcCyclesPerStim` (155), and the initial
`_updateList` (159).  GL handle generation, color-space handling, pos and
depth are external or irrelevant to the claims and are seeded with fixed
values. -/
def initStim (units : UnitMode) (tex maskSpec : PatternSpec)
    (size sf : Option V2) (phase : V2) (ori : Rat) (texRes : Int) : GratingState :=
  let s : GratingState :=
    { units := units
      tex := tex
      mask := PatternSpec.blank
      texRes := texRes
      maskParams := none
      sf := ⟨1, 1⟩
      size := ⟨1, 1⟩
      phase := phase
      ori := ori
      contrast := 1
      opacity := 1
      rgb := (1, 1, 1)
      origSize := none
      requestedSize := size
      cycles := ⟨1, 1⟩
      needUpdate := true
      texHandle := PatternSpec.blank
      maskHandle := PatternSpec.blank
      sizeRendered := ⟨1, 1⟩
      posRendered := ⟨0, 0⟩
      winScale := ⟨1, 1⟩
      texID := 1
      maskID := 2
      listID := 3
      progSignedTexMask := 10 }
  let s := setSize s size
  let s := setSf s sf
  let s := setTex s tex
  let s := setMask s maskSpec
  let s := calcCyclesPerStim s
  updateListApply s

/-- GL commands appearing in the compiled display lists and the draw call.
`bindSampler i u` stands for the two `glUniform1i` sampler bindings of the
shader path (sampler 0 = pattern texture, sampler 1 = mask). -/
inductive GLCmd where
  | useProgram (p : Nat)
  | bindSampler (sampler : Nat) (unit : Nat)
  | activeTexture (unit : Nat)
  | bindTexture (id : Nat)
  | enableTex2D
  | disableTex2D
  | setColor (r g b a : Rat)
  | beginQuads
  | texCoord (unit : Nat) (u v : Rat)
  | vertex (x y : Rat)
  | endQuads
deriving DecidableEq, Repr

/-- Embedding of the command sequence compiled by `_updateListShaders`
(grating.py 283-340): program and sampler setup, mask on texture unit 1,
pattern on unit 0, one quad whose texture coordinates come from
`_cycles` and `phase` and whose mask coordinates are the constants
`Lmask=Bmask=0, Tmask=Rmask=1`, then unbinding and program reset. -/
def updateListShadersCmds (s : GratingState) : List GLCmd :=
  let L := -s.sizeRendered.x / 2
  let R := s.sizeRendered.x / 2
  let T := s.sizeRendered.y / 2
  let B := -s.sizeRendered.y / 2
  let Ltex := -s.cycles.x / 2 - s.phase.x + 0.5
  let Rtex := s.cycles.x / 2 - s.phase.x + 0.5
  let Ttex := s.cycles.y / 2 - s.phase.y + 0.5
  let Btex := -s.cycles.y / 2 - s.phase.y + 0.5
  [ GLCmd.useProgram s.progSignedTexMask,
    GLCmd.bindSampler 0 0,
    GLCmd.bindSampler 1 1,
    GLCmd.activeTexture 1, GLCmd.bindTexture s.maskID, GLCmd.enableTex2D,
    GLCmd.activeTexture 0, GLCmd.bindTexture s.texID, GLCmd.enableTex2D,
    GLCmd.beginQuads,
    GLCmd.texCoord 0 Rtex Btex, GLCmd.texCoord 1 1 0, GLCmd.vertex R B,
    GLCmd.texCoord 0 Ltex Btex, GLCmd.texCoord 1 0 0, GLCmd.vertex L B,
    GLCmd.texCoord 0 Ltex Ttex, GLCmd.texCoord 1 0 1, GLCmd.vertex L T,
    GLCmd.texCoord 0 Rtex Ttex, GLCmd.texCoord 1 1 1, GLCmd.vertex R T,
    GLCmd.endQuads,
    GLCmd.activeTexture 1, GLCmd.bindTexture 0, GLCmd.disableTex2D,
    GLCmd.activeTexture 0, GLCmd.bindTexture 0, GLCmd.disableTex2D,
    GLCmd.useProgram 0 ]

/-- Embedding of the command sequence compiled by `_updateListNoShaders`
(grating.py 353-406): it begins with `glColor4f(1,1,1,1)` ("glColor can
interfere with multitextures"), binds the two fixed-function texture
units, emits the same quad as the shader path, then disables and unbinds
both units. -/
def updateListNoShadersCmds (s : GratingState) : List GLCmd :=
  let L := -s.sizeRendered.x / 2
  let R := s.sizeRendered.x / 2
  let T := s.sizeRendered.y / 2
  let B := -s.sizeRendered.y / 2
  let Ltex := -s.cycles.x / 2 - s.phase.x + 0.5
  let Rtex := s.cycles.x / 2 - s.phase.x + 0.5
  let Ttex := s.cycles.y / 2 - s.phase.y + 0.5
  let Btex := -s.cycles.y / 2 - s.phase.y + 0.5
  [ GLCmd.setColor 1 1 1 1,
    GLCmd.activeTexture 1, GLCmd.enableTex2D, GLCmd.bindTexture s.maskID,
    GLCmd.activeTexture 0, GLCmd.enableTex2D, GLCmd.bindTexture s.texID,
    GLCmd.beginQuads,
    GLCmd.texCoord 0 Rtex Btex, GLCmd.texCoord 1 1 0, GLCmd.vertex R B,
    GLCmd.texCoord 0 Ltex Btex, GLCmd.texCoord 1 0 0, GLCmd.vertex L B,
    GLCmd.texCoord 0 Ltex Ttex, GLCmd.texCoord 1 0 1, GLCmd.vertex L T,
    GLCmd.texCoord 0 Rtex Ttex, GLCmd.texCoord 1 1 1, GLCmd.vertex R T,
    GLCmd.endQuads,
    GLCmd.activeTexture 1, GLCmd.disableTex2D, GLCmd.bindTexture 0,
    GLCmd.activeTexture 0, GLCmd.disableTex2D, GLCmd.bindTexture 0 ]

/-- The texture coordinate pairs a compiled list emits on the given texture
unit, in emission order. -/
def texCoordsAt (unit : Nat) (l : List GLCmd) : List (Rat × Rat) :=
  l.filterMap fun c =>
    match c with
    | GLCmd.texCoord u a b => if u = unit then some (a, b) else none
    | _ => none

/-- The vertex pairs a compiled list emits, in emission order. -/
def vertsOf (l : List GLCmd) : List (Rat × Rat) :=
  l.filterMap fun c =>
    match c with
    | GLCmd.vertex a b => some (a, b)
    | _ => none

/-- Whether a command is a `glColor4f` call. -/
def isSetColor : GLCmd → Bool
  | GLCmd.setColor _ _ _ _ => true
  | _ => false

/-- Modelled from the spec: the Color Resolver of section 6
(`_getDesiredRGB` lives in `BaseVisualStim`, not under src/): it resolves
the stored color and contrast to a normalized RGB triple.  The exact
conversion is external; it is modelled as scaling the stored rgb by
contrast. -/
def getDesiredRGB (s : GratingState) : Rat × Rat × Rat :=
  (s.rgb.1 * s.contrast, s.rgb.2.1 * s.contrast, s.rgb.2.2 * s.contrast)

/-- The color-relevant command trace of one `draw` call (grating.py
264-269): `glColor4f(desiredRGB, opacity)` immediately followed by the
replay of the stored display list (`glCallList`), inlined here.  `legacy`
selects which backend compiled the stored list (`useShaders`). -/
def drawTraceCmds (s : GratingState) (legacy : Bool) : List GLCmd :=
  let d := getDesiredRGB s
  GLCmd.setColor d.1 d.2.1 d.2.2 s.opacity ::
    (if legacy then updateListNoShadersCmds s else updateListShadersCmds s)

/-- The current GL color after executing a command list starting from
color `c`: each `glColor4f` overwrites it, every other command leaves it. -/
def runColor (c : Rat × Rat × Rat × Rat) : List GLCmd → Rat × Rat × Rat × Rat
  | [] => c
  | GLCmd.setColor r g b a :: rest => runColor (r, g, b, a) rest
  | _ :: rest => runColor c rest

/-- Transform operations issued between `glPushMatrix` and `glPopMatrix`
in `draw` (grating.py 257-261). -/
inductive XformOp where
  | scaleOp (x y : Rat)
  | translateOp (x y : Rat)
  | rotateOp (a : Rat)
deriving DecidableEq, Repr

/-- The display context transform state: the current matrix (as the list
of operations composed onto it) and the `glPushMatrix` stack. -/
structure GLCtx where
  cur : List XformOp
  saved : List (List XformOp)
deriving DecidableEq, Repr

/-- `glPushMatrix`: save a copy of the current matrix. -/
def GLCtx.push (g : GLCtx) : GLCtx := { g with saved := g.cur :: g.saved }

/-- Compose a transform operation onto the current matrix. -/
def GLCtx.apply (g : GLCtx) (op : XformOp) : GLCtx := { g with cur := op :: g.cur }

/-- `glPopMatrix`: restore the last saved matrix (no-op on an empty
stack, which GL reports as an error). -/
def GLCtx.pop (g : GLCtx) : GLCtx :=
  match g.saved with
  | [] => g
  | h :: t => { cur := h, saved := t }

/-- Embedding of the transform effect of `draw` (grating.py 246-272):
`glPushMatrix`, `win.setScale`, `glTranslatef(posRendered)`,
`glRotatef(-ori)`, then the lazy list recompilation when dirty, the list
replay, and `glPopMatrix`.  The source has no try/finally, so when the
recompilation raises (modelled by `updateFails`, reachable only when the
stimulus is dirty) the error propagates and `glPopMatrix` is never
executed; the error value carries the context at the raise point. -/
def drawXform (s : GratingState) (g : GLCtx) (updateFails : Bool) :
    Except GLCtx GLCtx :=
  let g1 := GLCtx.push g
  let g2 := GLCtx.apply g1 (XformOp.scaleOp s.winScale.x s.winScale.y)
  let g3 := GLCtx.apply g2 (XformOp.translateOp s.posRendered.x s.posRendered.y)
  let g4 := GLCtx.apply g3 (XformOp.rotateOp (-s.ori))
  if s.needUpdate && updateFails then Except.error g4
  else Except.ok (GLCtx.pop g4)

/-- Whether an `Except` computation raised. -/
def exceptRaised : Except GLCtx GLCtx → Bool
  | Except.error _ => true
  | Except.ok _ => false

/-- The GL context when a draw returns or raises. -/
def ctxAfterDraw (s : GratingState) (g : GLCtx) (updateFails : Bool) : GLCtx :=
  match drawXform s g updateFails with
  | Except.ok g2 => g2
  | Except.error g2 => g2

/-- Embedding of the state effect of `_updateListShaders` /
`_updateListNoShaders` (grating.py 274-340, 343-406): both set
`self._needUpdate = False` as their very first statement (282, 351),
before `glNewList` and every other GL command.  `glFails` models a GL
call raising after that first statement; the error carries the stimulus
state at the raise point. -/
def updateListRun (s : GratingState) (glFails : Bool) :
    Except GratingState GratingState :=
  let s1 := { s with needUpdate := false }
  if glFails then Except.error s1 else Except.ok s1

/-- Whether a list recompilation raised. -/
def updateRaised : Except GratingState GratingState → Bool
  | Except.error _ => true
  | Except.ok _ => false

/-- The stimulus state when a list recompilation returns or raises. -/
def stimAfterUpdate (s : GratingState) (glFails : Bool) : GratingState :=
  match updateListRun s glFails with
  | Except.ok t => t
  | Except.error t => t

/-- Embedding of `clearTextures` (grating.py 413-420): delete the pattern
texture then the mask texture.  `ctxAlive` models whether the GL context
still exists; a GL delete call against a torn-down context is modelled as
raising.  The function contains no try/except, so the first failing call
propagates; on success the returned list records the released handles in
order. -/
def clearTexturesRun (s : GratingState) (ctxAlive : Bool) :
    Except Unit (List Nat) :=
  if ctxAlive then Except.ok [s.texID, s.maskID] else Except.error ()

/-- Embedding of `__del__` (grating.py 409-411): `glDeleteLists(_listID, 1)`
then `clearTextures()`, with no try/except around either call. -/
def delRun (s : GratingState) (ctxAlive : Bool) : Except Unit (List Nat) :=
  if ctxAlive then
    match clearTexturesRun s ctxAlive with
    | Except.ok released => Except.ok (s.listID :: released)
    | Except.error e => Except.error e
  else Except.error ()

/-- A stimulus constructed with an explicit size, as in the spec scenario:
`texture='sin'`, `mask='none'`, `size=(2,2)`, `units='norm'`,
`spatialFrequency=(1,1)`. -/
def sNormExpl : GratingState :=
  initStim UnitMode.norm PatternSpec.sin PatternSpec.blank
    (some ⟨2, 2⟩) (some ⟨1, 1⟩) ⟨0, 0⟩ 0 128

/-- The same stimulus constructed with `units='pix'`. -/
def sPixExpl : GratingState :=
  initStim UnitMode.pix PatternSpec.sin PatternSpec.blank
    (some ⟨2, 2⟩) (some ⟨1, 1⟩) ⟨0, 0⟩ 0 128

/-- A stimulus whose texture is an image file (intrinsic size 4x4) in
degree units, with an explicit size. -/
def sDegImg : GratingState :=
  initStim UnitMode.deg (PatternSpec.image ⟨4, 4⟩) PatternSpec.blank
    (some ⟨2, 2⟩) (some ⟨1, 1⟩) ⟨0, 0⟩ 0 128

/-- A stimulus constructed with `size=None` (auto size) in degree units. -/
def sDegAuto : GratingState :=
  initStim UnitMode.deg PatternSpec.sin PatternSpec.blank
    none (some ⟨1, 1⟩) ⟨0, 0⟩ 0 128

/-- `sNormExpl` with the dirty flag raised. -/
def sNormDirty : GratingState := { sNormExpl with needUpdate := true }

/-- An initial GL context: identity matrix, empty save stack. -/
def g0 : GLCtx := ⟨[], []⟩

/-- Claim C1: after any change to spatialFrequency, size, or units, the
derived cyclesPerStimulus equals spatialFrequency when units is normalized
or height, and spatialFrequency * size componentwise otherwise; the spec
scenario with size=(2,2), sf=(1,1), units=norm gives cycles=(1,1), and
setting units=deg with size unchanged gives cycles=(2,2). -/
theorem C1_cyclesPerStimulus :
    (∀ (s : GratingState) (v : Option V2),
      (setSf s v).cycles =
        (if (setSf s v).units = UnitMode.norm ∨ (setSf s v).units = UnitMode.height
         then (setSf s v).sf else V2.mul (setSf s v).sf (setSf s v).size))
  ∧ (∀ (s : GratingState) (v : Option V2),
      (setSize s v).cycles =
        (if (setSize s v).units = UnitMode.norm ∨ (setSize s v).units = UnitMode.height
         then (setSize s v).sf else V2.mul (setSize s v).sf (setSize s v).size))
  ∧ (∀ (s : GratingState) (u : UnitMode),
      (setUnits s u).cycles =
        (if (setUnits s u).units = UnitMode.norm ∨ (setUnits s u).units = UnitMode.height
         then (setUnits s u).sf else V2.mul (setUnits s u).sf (setUnits s u).size))
  ∧ sNormExpl.cycles = ⟨1, 1⟩
  ∧ (setUnits sNormExpl UnitMode.deg).cycles = ⟨2, 2⟩ :=
  ⟨fun _ _ => rfl, fun _ _ => rfl, fun _ _ => rfl,
   by with_unfolding_all decide, by with_unfolding_all decide⟩

/-- Claim C2, counterexample: a stimulus constructed with an explicit size
whose dirty flag is clear stays clean across a texture mutation and across
a mask mutation — the `tex` and `mask` setters never write `_needUpdate`,
refuting the claim that every listed setter sets the dirty flag. -/
theorem C2_counterexample :
    sNormExpl.needUpdate = false
  ∧ (setTex sNormExpl PatternSpec.sqr).needUpdate = false
  ∧ (setMask sNormExpl PatternSpec.circle).needUpdate = false := by
  with_unfolding_all decide

/-- Claim C2, amended: the phase, spatialFrequency, size and orientation
setters set the dirty flag; the mask setter leaves it unchanged; the
texture setter leaves it unchanged unless size was requested auto (then
the nested size re-resolution sets it); textureResolution and
maskExtraParams are plain attribute stores that leave it unchanged. -/
theorem C2_dirty_flag_after_setters :
    (∀ (s : GratingState) (v : V2), (setPhase s v).needUpdate = true)
  ∧ (∀ (s : GratingState) (v : Option V2), (setSf s v).needUpdate = true)
  ∧ (∀ (s : GratingState) (v : Option V2), (setSize s v).needUpdate = true)
  ∧ (∀ (s : GratingState) (o : Rat), (setOri s o).needUpdate = true)
  ∧ (∀ (s : GratingState) (v : PatternSpec), (setMask s v).needUpdate = s.needUpdate)
  ∧ (∀ (s : GratingState) (v : PatternSpec), s.requestedSize ≠ none →
      (setTex s v).needUpdate = s.needUpdate)
  ∧ (∀ (s : GratingState) (v : PatternSpec), s.requestedSize = none →
      (setTex s v).needUpdate = true)
  ∧ (∀ (s : GratingState) (v : Int) (t : GratingState),
      setTexRes s v = Except.ok t → t.needUpdate = s.needUpdate)
  ∧ (∀ (s : GratingState) (v : Option Int), (setMaskParams s v).needUpdate = s.needUpdate) := by
  refine ⟨fun _ _ => rfl, fun _ _ => rfl, fun _ _ => rfl, fun _ _ => rfl, ?_, ?_, ?_, ?_,
    fun _ _ => rfl⟩
  · intro s v
    cases v <;> rfl
  · intro s v h
    cases v <;> simp [setTex, createTexture, setSize, calcCyclesPerStim, h]
  · intro s v h
    cases v <;> simp [setTex, createTexture, setSize, calcCyclesPerStim, h]
  · intro s v t h
    simp only [setTexRes, Except.ok.injEq] at h
    subst h
    rfl

/-- Claim C2, witness: the hypothesis-bearing conjuncts instantiated at
concrete stimuli. -/
theorem C2_dirty_flag_witness :
    (setTex sNormExpl PatternSpec.sqr).needUpdate = sNormExpl.needUpdate
  ∧ (setTex sDegAuto PatternSpec.sqr).needUpdate = true
  ∧ ({ sNormExpl with texRes := 100 } : GratingState).needUpdate = sNormExpl.needUpdate :=
  ⟨C2_dirty_flag_after_setters.2.2.2.2.2.1 sNormExpl PatternSpec.sqr (by with_unfolding_all decide),
   C2_dirty_flag_after_setters.2.2.2.2.2.2.1 sDegAuto PatternSpec.sqr (by with_unfolding_all decide),
   C2_dirty_flag_after_setters.2.2.2.2.2.2.2.1 sNormExpl 100 _ rfl⟩

/-- Claim C3, counterexample: assigning textureResolution 100 (not a power
of two) raises nothing and stores 100, and a negative value is likewise
accepted — refuting the claim that such values fail with
InvalidParameterError leaving the parameter unchanged. -/
theorem C3_counterexample :
    setTexRes sNormExpl 100 = Except.ok { sNormExpl with texRes := 100 }
  ∧ setTexRes sNormExpl (-5) = Except.ok { sNormExpl with texRes := -5 } :=
  ⟨rfl, rfl⟩

/-- Claim C3, amended: assignment to textureResolution is a plain,
unvalidated attribute store that never raises; 100, negative values and
128 are all accepted and stored unchanged (the power-of-two requirement at
grating.py 117 is only a comment addressed to the caller). -/
theorem C3_texRes_store :
    (∀ (s : GratingState) (v : Int), setTexRes s v = Except.ok { s with texRes := v })
  ∧ (initStim UnitMode.norm PatternSpec.sin PatternSpec.blank
      (some ⟨2, 2⟩) (some ⟨1, 1⟩) ⟨0, 0⟩ 0 100).texRes = 100
  ∧ (initStim UnitMode.norm PatternSpec.sin PatternSpec.blank
      (some ⟨2, 2⟩) (some ⟨1, 1⟩) ⟨0, 0⟩ 0 128).texRes = 128 :=
  ⟨fun _ _ => rfl, by with_unfolding_all decide, by with_unfolding_all decide⟩

/-- Claim C4, counterexample: a stimulus in pixel units with no source
image (origSize is None) and size (2,2) resolves an unset
spatialFrequency to 1/size = (1/2,1/2), not to (1,1) as the claim
requires when no source image established an intrinsic size. -/
theorem C4_counterexample :
    sPixExpl.units = UnitMode.pix
  ∧ sPixExpl.origSize = none
  ∧ (setSf sPixExpl none).sf = ⟨1 / 2, 1 / 2⟩
  ∧ ¬(setSf sPixExpl none).sf = ⟨1, 1⟩ := by
  with_unfolding_all decide

/-- Claim C4, amended: an unset spatialFrequency resolves to 1/size
componentwise when units are pixels (with or without a source image), or
when a source image established an intrinsic size and units are degrees
or centimeters; in every other case it resolves to (1,1). -/
theorem C4_sf_auto_resolution :
    (∀ s : GratingState, (s.units = UnitMode.pix ∨ s.units = UnitMode.pixels) →
      (setSf s none).sf = V2.inv s.size)
  ∧ (∀ (s : GratingState) (o : V2), s.origSize = some o →
      (s.units = UnitMode.deg ∨ s.units = UnitMode.cm) →
      (setSf s none).sf = V2.inv s.size)
  ∧ (∀ s : GratingState,
      ¬((s.units = UnitMode.pix ∨ s.units = UnitMode.pixels)
        ∨ (s.origSize ≠ none ∧ (s.units = UnitMode.deg ∨ s.units = UnitMode.cm))) →
      (setSf s none).sf = ⟨1, 1⟩) := by
  refine ⟨?_, ?_, ?_⟩
  · intro s h
    unfold setSf
    rw [if_pos (Or.inl h)]
    exact rfl
  · intro s o h1 h2
    unfold setSf
    rw [if_pos (Or.inr ⟨by simp [h1], h2⟩)]
    exact rfl
  · intro s h
    unfold setSf
    rw [if_neg h]
    exact rfl

/-- Claim C4, witness: the three resolution branches instantiated at
concrete stimuli (pixel units without an image, degree units with an
image, normalized units). -/
theorem C4_sf_auto_witness :
    (setSf sPixExpl none).sf = V2.inv sPixExpl.size
  ∧ (setSf sDegImg none).sf = V2.inv sDegImg.size
  ∧ (setSf sNormExpl none).sf = ⟨1, 1⟩ :=
  ⟨C4_sf_auto_resolution.1 sPixExpl (Or.inl (by with_unfolding_all decide)),
   C4_sf_auto_resolution.2.1 sDegImg ⟨4, 4⟩ (by with_unfolding_all decide)
     (Or.inl (by with_unfolding_all decide)),
   C4_sf_auto_resolution.2.2 sNormExpl (by with_unfolding_all decide)⟩

/-- Claim C5: on both backend paths the compiled quad emits, per corner and
per axis, texture coordinates equal to plus-or-minus cycles/2 - phase + 0.5,
mask coordinates equal to the fixed unit square corners, and vertices at
plus-or-minus renderedSize/2, all in corner order RB, LB, LT, RT. -/
theorem C5_quad_coords :
    ∀ s : GratingState,
      texCoordsAt 0 (updateListShadersCmds s) =
        [ (s.cycles.x / 2 - s.phase.x + 0.5, -s.cycles.y / 2 - s.phase.y + 0.5),
          (-s.cycles.x / 2 - s.phase.x + 0.5, -s.cycles.y / 2 - s.phase.y + 0.5),
          (-s.cycles.x / 2 - s.phase.x + 0.5, s.cycles.y / 2 - s.phase.y + 0.5),
          (s.cycles.x / 2 - s.phase.x + 0.5, s.cycles.y / 2 - s.phase.y + 0.5) ]
    ∧ texCoordsAt 0 (updateListNoShadersCmds s) =
        [ (s.cycles.x / 2 - s.phase.x + 0.5, -s.cycles.y / 2 - s.phase.y + 0.5),
          (-s.cycles.x / 2 - s.phase.x + 0.5, -s.cycles.y / 2 - s.phase.y + 0.5),
          (-s.cycles.x / 2 - s.phase.x + 0.5, s.cycles.y / 2 - s.phase.y + 0.5),
          (s.cycles.x / 2 - s.phase.x + 0.5, s.cycles.y / 2 - s.phase.y + 0.5) ]
    ∧ texCoordsAt 1 (updateListShadersCmds s) = [(1, 0), (0, 0), (0, 1), (1, 1)]
    ∧ texCoordsAt 1 (updateListNoShadersCmds s) = [(1, 0), (0, 0), (0, 1), (1, 1)]
    ∧ vertsOf (updateListShadersCmds s) =
        [ (s.sizeRendered.x / 2, -s.sizeRendered.y / 2),
          (-s.sizeRendered.x / 2, -s.sizeRendered.y / 2),
          (-s.sizeRendered.x / 2, s.sizeRendered.y / 2),
          (s.sizeRendered.x / 2, s.sizeRendered.y / 2) ]
    ∧ vertsOf (updateListNoShadersCmds s) =
        [ (s.sizeRendered.x / 2, -s.sizeRendered.y / 2),
          (-s.sizeRendered.x / 2, -s.sizeRendered.y / 2),
          (-s.sizeRendered.x / 2, s.sizeRendered.y / 2),
          (s.sizeRendered.x / 2, s.sizeRendered.y / 2) ] :=
  fun _ => ⟨rfl, rfl, rfl, rfl, rfl, rfl⟩

/-- Claim C6, counterexample: a draw on a dirty stimulus whose
recompilation raises leaves the pushed, translated transform on the
context (the save stack grew from empty to one entry), refuting the claim
that the transform state is unchanged after a draw that raises. -/
theorem C6_counterexample :
    exceptRaised (drawXform sNormDirty g0 true) = true
  ∧ ¬(ctxAfterDraw sNormDirty g0 true).saved = g0.saved
  ∧ ¬ctxAfterDraw sNormDirty g0 true = g0 := by
  with_unfolding_all decide

/-- Claim C6, amended: every successful draw restores the context exactly
(push before, pop after); but draw has no try/finally, so a draw whose
recompilation raises propagates the error with the pushed transform still
on the save stack. -/
theorem C6_transform_restore :
    (∀ (s : GratingState) (g : GLCtx), drawXform s g false = Except.ok g)
  ∧ (∀ (s : GratingState) (g : GLCtx), s.needUpdate = true →
      exceptRaised (drawXform s g true) = true
      ∧ (ctxAfterDraw s g true).saved = g.cur :: g.saved) := by
  constructor
  · intro s g
    cases h : s.needUpdate <;>
      simp [drawXform, h, GLCtx.pop, GLCtx.push, GLCtx.apply]
  · intro s g h
    constructor
    · simp [drawXform, exceptRaised, h]
    · simp [ctxAfterDraw, drawXform, h, GLCtx.push, GLCtx.apply]

/-- Claim C6, witness: the amended statement instantiated at a clean and
at a dirty stimulus over the empty context. -/
theorem C6_transform_witness :
    drawXform sNormExpl g0 false = Except.ok g0
  ∧ (ctxAfterDraw sNormDirty g0 true).saved = g0.cur :: g0.saved :=
  ⟨C6_transform_restore.1 sNormExpl g0,
   (C6_transform_restore.2 sNormDirty g0 (by with_unfolding_all decide)).2⟩

/-- Claim C7, counterexample: a dirty stimulus whose recompilation raises
partway ends up with the dirty flag cleared (both recompilers assign
needUpdate false before any GL command), refuting the claim that a
failing recompilation leaves the stimulus dirty. -/
theorem C7_counterexample :
    sNormDirty.needUpdate = true
  ∧ updateRaised (updateListRun sNormDirty true) = true
  ∧ (stimAfterUpdate sNormDirty true).needUpdate = false := by
  with_unfolding_all decide

/-- Claim C7, amended: list recompilation clears the dirty flag at its
start, before any GL command, so the flag is clear after a recompilation
whether it succeeds or raises partway; and no setter ever clears the
flag. -/
theorem C7_dirty_clearing :
    (∀ (s : GratingState) (b : Bool), (stimAfterUpdate s b).needUpdate = false)
  ∧ (∀ (s : GratingState) (b : Bool), updateRaised (updateListRun s b) = b)
  ∧ (∀ s : GratingState, s.needUpdate = true →
      (∀ v : V2, (setPhase s v).needUpdate = true)
      ∧ (∀ v : Option V2, (setSf s v).needUpdate = true)
      ∧ (∀ v : Option V2, (setSize s v).needUpdate = true)
      ∧ (∀ u : UnitMode, (setUnits s u).needUpdate = true)
      ∧ (∀ o : Rat, (setOri s o).needUpdate = true)
      ∧ (∀ v : PatternSpec, (setTex s v).needUpdate = true)
      ∧ (∀ v : PatternSpec, (setMask s v).needUpdate = true)
      ∧ (∀ v : Option Int, (setMaskParams s v).needUpdate = true)
      ∧ (∀ (v : Int) (t : GratingState), setTexRes s v = Except.ok t →
          t.needUpdate = true)) := by
  refine ⟨?_, ?_, ?_⟩
  · intro s b
    cases b <;> rfl
  · intro s b
    cases b <;> rfl
  · intro s h
    refine ⟨fun _ => rfl, fun _ => rfl, fun _ => rfl, fun _ => rfl, fun _ => rfl, ?_, ?_, ?_, ?_⟩
    · intro v
      cases v <;> cases h2 : s.requestedSize <;>
        simp [setTex, createTexture, setSize, calcCyclesPerStim, h2, h]
    · intro v
      cases v <;> simp [setMask, createTexture, h]
    · intro v
      simp [setMaskParams, h]
    · intro v t h2
      simp only [setTexRes, Except.ok.injEq] at h2
      subst h2
      exact h

/-- Claim C7, witness: the amended statement instantiated at a dirty
stimulus, for a succeeding and for a failing recompilation and for a
texture mutation. -/
theorem C7_dirty_witness :
    (stimAfterUpdate sNormDirty false).needUpdate = false
  ∧ (stimAfterUpdate sNormDirty true).needUpdate = false
  ∧ (setTex sNormDirty PatternSpec.sqr).needUpdate = true :=
  ⟨C7_dirty_clearing.1 sNormDirty false,
   C7_dirty_clearing.1 sNormDirty true,
   (C7_dirty_clearing.2.2 sNormDirty (by with_unfolding_all decide)).2.2.2.2.2.1
     PatternSpec.sqr⟩

/-- Claim C8, counterexample: against a torn-down context, both
clearTextures and destruction propagate the GL error (grating.py 409-420
contain no try/except), refuting the claim that teardown never raises. -/
theorem C8_counterexample :
    clearTexturesRun sNormExpl false = Except.error ()
  ∧ delRun sNormExpl false = Except.error () :=
  ⟨rfl, rfl⟩

/-- Claim C8, amended: when the context is alive, destruction releases the
draw list, the texture and the mask handle once each, in that order;
against a torn-down context the release calls raise and the error
propagates unsuppressed. -/
theorem C8_teardown_release :
    ∀ s : GratingState,
      delRun s true = Except.ok [s.listID, s.texID, s.maskID]
    ∧ clearTexturesRun s true = Except.ok [s.texID, s.maskID]
    ∧ delRun s false = Except.error ()
    ∧ clearTexturesRun s false = Except.error () :=
  fun _ => ⟨rfl, rfl, rfl, rfl⟩

/-- Claim C9: setting texture uploads the new pattern into the texture
handle; a stimulus whose construction requested an explicit size keeps its
size across texture changes; a stimulus whose size was auto re-resolves
size from the new image intrinsic size and recomputes cycles (and is
marked dirty via the size setter). -/
theorem C9_tex_setter :
    (∀ (s : GratingState) (v : PatternSpec), (setTex s v).texHandle = v)
  ∧ (∀ (s : GratingState) (v : PatternSpec) (w : V2),
      s.requestedSize = some w → (setTex s v).size = s.size)
  ∧ (∀ (s : GratingState) (isz : V2), s.requestedSize = none →
      (setTex s (PatternSpec.image isz)).size = isz
      ∧ (setTex s (PatternSpec.image isz)).sf = s.sf
      ∧ (setTex s (PatternSpec.image isz)).cycles =
          (if s.units = UnitMode.norm ∨ s.units = UnitMode.height
           then s.sf else V2.mul s.sf isz)
      ∧ (setTex s (PatternSpec.image isz)).needUpdate = true) := by
  refine ⟨?_, ?_, ?_⟩
  · intro s v
    cases v <;> cases h : s.requestedSize <;>
      simp [setTex, createTexture, setSize, calcCyclesPerStim, h]
  · intro s v w h
    cases v <;> simp [setTex, createTexture, setSize, calcCyclesPerStim, h]
  · intro s isz h
    refine ⟨?_, ?_, ?_, ?_⟩ <;>
      simp [setTex, createTexture, setSize, calcCyclesPerStim, h]

/-- Claim C9, witness: the hypothesis-bearing conjuncts instantiated at a
stimulus with an explicit size and at one constructed with auto size. -/
theorem C9_tex_witness :
    (setTex sNormExpl PatternSpec.sqr).size = sNormExpl.size
  ∧ (setTex sDegAuto (PatternSpec.image ⟨4, 4⟩)).size = ⟨4, 4⟩ :=
  ⟨C9_tex_setter.2.1 sNormExpl PatternSpec.sqr ⟨2, 2⟩ (by with_unfolding_all decide),
   (C9_tex_setter.2.2 sDegAuto ⟨4, 4⟩ (by with_unfolding_all decide)).1⟩

/-- Claim C10: the legacy compiled list begins with glColor4f(1,1,1,1), the
shader compiled list contains no color command, and consequently replaying
the legacy list right after draw set the per-draw color leaves the current
color white, while the shader path leaves it at the per-draw color
resolved from colorSpec, contrast and opacity. -/
theorem C10_legacy_color :
    ∀ (s : GratingState) (c : Rat × Rat × Rat × Rat),
      (updateListNoShadersCmds s).head? = some (GLCmd.setColor 1 1 1 1)
    ∧ (updateListShadersCmds s).any isSetColor = false
    ∧ runColor c (drawTraceCmds s true) = (1, 1, 1, 1)
    ∧ runColor c (drawTraceCmds s false) =
        ((getDesiredRGB s).1, (getDesiredRGB s).2.1, (getDesiredRGB s).2.2, s.opacity) :=
  fun _ _ => ⟨rfl, rfl, rfl, rfl⟩

end PsychoPy
